import Mathlib

/-!
Verification of the HAProxy ingress controller orchestrator
(`pkg/controller/controller.go`) against its natural-language
specification.

The controller code is embedded shallowly: the mutable fields of the Go
`HAProxyController` struct become fields of a Lean structure, and each
method becomes a pure function from the controller state (and the
operator configuration) to a new state together with a trace of the
observable effects it performs, in order.  External collaborators that
are not part of the repository slice (the generic work queue, the
converter, the haproxy instance) are represented by the events the
controller sends them; the pieces of them that a claim depends on are
modelled from the specification and marked as such in their doc
comments.
-/

namespace HAProxyIngress

/-- Operator configuration (`controller.Configuration`), restricted to the
fields the orchestrator reads. Durations are carried as plain integers
(milliseconds resp. seconds) since only their sign is ever inspected here. -/
structure Configuration where
  acmeServer : Bool
  acmeElectionID : String
  ingressClass : String
  acmeFailInitialDuration : Nat
  acmeFailMaxDuration : Nat
  rateLimitUpdate : Nat
  statsCollectProcPeriodMs : Int
  waitBeforeShutdown : Int
  deriving Repr, DecidableEq

/-- Modelled from the spec: the generic work queue of `pkg/utils`
(`utils.Queue`, not under the repository slice).  A queue holds its
pending items and a shutting-down flag; `ShutDown` stops accepting new
work, `ShuttingDown` observes the flag, `Clear` discards every pending
item immediately. -/
structure Queue where
  pending : List String
  shuttingDown : Bool
  deriving Repr, DecidableEq

/-- Modelled from the spec: a freshly created queue has no pending items
and is not shutting down. -/
def Queue.new : Queue := { pending := [], shuttingDown := false }

/-- Modelled from the spec: `Clear()` discards all pending and
in-flight-scheduled items immediately. -/
def Queue.clear (q : Queue) : Queue := { q with pending := [] }

/-- Modelled from the spec: `ShutDown()` stops accepting new `Run`
iterations. -/
def Queue.shutDown (q : Queue) : Queue := { q with shuttingDown := true }

/-- Modelled from the spec: one iteration of the queue's processing loop
takes the next eligible pending item, to be handed to the registered
handler; when nothing is pending no handler invocation occurs. -/
def Queue.nextInvocation (q : Queue) : Option String := q.pending.head?

/-- The controller state: the fields of the Go `HAProxyController` struct
that the verified claims read or write.  Go nil-able references
(`leaderelector`, `acmeQueue`, the acme signer) become `Option`s; the
leader elector carries its election identifier.  `instanceReloadStrategy`
records the `ReloadStrategy` value placed into `haproxy.InstanceOptions`. -/
structure HAProxyController where
  updateCount : Nat
  ingressQueue : Queue
  acmeQueue : Option Queue
  leaderelector : Option String
  acmeSigner : Option Unit
  instanceReloadStrategy : String
  deriving Repr, DecidableEq

/-- `NewHAProxyController`: the zero-valued struct. -/
def NewHAProxyController : HAProxyController :=
  { updateCount := 0
    ingressQueue := Queue.new
    acmeQueue := none
    leaderelector := none
    acmeSigner := none
    instanceReloadStrategy := "" }

/-- Observable effects of the reconciliation handler `syncIngress`, in
the order the handler performs them.  `logFinish` carries the update
counter id reported by the completion log line (the elapsed time it also
prints is the wall-clock reading of the timer started by `timerStart`). -/
inductive SyncEvent where
  | logStart (id : Nat)
  | timerStart
  | converterSync
  | instanceUpdate
  | logFinish (id : Nat)
  deriving Repr, DecidableEq

/-- `syncIngress`: the reconciliation handler registered on the work
queue.  If the ingress queue is shutting down it returns immediately;
otherwise it increments the update counter, logs the start line, creates
the timer, runs the converter's `Sync` on the instance's configuration
model, runs `instance.Update(timer)` and logs the finish line with the
same counter id. -/
def syncIngress (hc : HAProxyController) : HAProxyController × List SyncEvent :=
  if hc.ingressQueue.shuttingDown then (hc, [])
  else
    let hc' := { hc with updateCount := hc.updateCount + 1 }
    (hc',
      [ .logStart hc'.updateCount
      , .timerStart
      , .converterSync
      , .instanceUpdate
      , .logFinish hc'.updateCount ])

/-- `n` successive completed invocations of the reconciliation handler
(state component only). -/
def iterSync : Nat → HAProxyController → HAProxyController
  | 0, hc => hc
  | n + 1, hc => iterSync n (syncIngress hc).1

/-- The leader-election identifier built in `configController`:
`fmt.Sprintf("%s-%s", hc.cfg.AcmeElectionID, hc.cfg.IngressClass)`. -/
def electorID (cfg : Configuration) : String :=
  cfg.acmeElectionID ++ "-" ++ cfg.ingressClass

/-- Warnings `configController` emits before wiring the components: the
deprecated `multibinder` reload strategy is warned about. -/
def configControllerWarnings (reloadStrategy : String) : List String :=
  if reloadStrategy == "multibinder" then
    ["multibinder is deprecated, using reusesocket strategy instead. update your deployment configuration"]
  else []

/-- `configController`: builds the controller's components.  The leader
elector, the acme signer and the acme failure-backoff queue are created
only when `cfg.AcmeServer` is set; `haproxy.InstanceOptions.ReloadStrategy`
receives the flag value unchanged. -/
def configController (cfg : Configuration) (reloadStrategy : String) :
    HAProxyController :=
  { updateCount := 0
    ingressQueue := Queue.new
    leaderelector := if cfg.acmeServer then some (electorID cfg) else none
    acmeSigner := if cfg.acmeServer then some () else none
    acmeQueue := if cfg.acmeServer then some Queue.new else none
    instanceReloadStrategy := reloadStrategy }

/-- The background services `startServices` launches, in order. -/
inductive Service where
  | cacheRun
  | ingressQueueRun
  | calcIdleMetricLoop
  | electorRun
  | acmeServerListen
  | acmeQueueRun
  | acmeJitterCheck
  | watchControllerStart
  deriving Repr, DecidableEq

/-- `startServices`: starts the cache watchers and the ingress queue
worker, the idle-metric sampler when its period is positive, the leader
elector loop when an elector exists, and — when `cfg.AcmeServer` is set —
the acme control-socket listener, the acme queue worker and the periodic
jittered certificate check; finally starts the external watch
controller. -/
def startServices (cfg : Configuration) (hc : HAProxyController) : List Service :=
  [Service.cacheRun, Service.ingressQueueRun]
    ++ (if cfg.statsCollectProcPeriodMs > 0 then [Service.calcIdleMetricLoop] else [])
    ++ (if hc.leaderelector.isSome then [Service.electorRun] else [])
    ++ (if cfg.acmeServer then
          [Service.acmeServerListen, Service.acmeQueueRun, Service.acmeJitterCheck]
        else [])
    ++ [Service.watchControllerStart]

/-- `OverrideFlags`: validates the reload strategy against the allow-list
`{native, reusesocket, multibinder}`; any other value is a fatal startup
error (`glog.Fatalf`), embedded as `Except.error`. -/
def OverrideFlags (reloadStrategy : String) : Except String Unit :=
  if !(reloadStrategy == "native" || reloadStrategy == "reusesocket"
        || reloadStrategy == "multibinder") then
    Except.error ("Unsupported reload strategy: " ++ reloadStrategy)
  else Except.ok ()

/-- Modelled from the spec: the Proxy Instance Manager (the `haproxy`
package, outside the repository slice) treats the deprecated
`multibinder` value as the `reusesocket` strategy; every other allowed
value is used as given. -/
def effectiveReloadStrategy (s : String) : String :=
  if s == "multibinder" then "reusesocket" else s

/-- Startup pipeline: `OverrideFlags` runs during flag handling, before
`Start`; when it fails fatally nothing else runs and no queue is started.
Otherwise `Start` runs `configController` (collecting its warnings) and
`startServices`.  The success value is the configured controller, the
warnings emitted, and the services started. -/
def startup (cfg : Configuration) (reloadStrategy : String) :
    Except String (HAProxyController × List String × List Service) :=
  match OverrideFlags reloadStrategy with
  | Except.error e => Except.error e
  | Except.ok _ =>
      let hc := configController cfg reloadStrategy
      Except.ok (hc, configControllerWarnings reloadStrategy, startServices cfg hc)

/-- The services a startup outcome has started: none when startup
terminated fatally. -/
def startedServices :
    Except String (HAProxyController × List String × List Service) → List Service
  | Except.error _ => []
  | Except.ok (_, _, svcs) => svcs

/-- `OnStoppedLeading`: clears the acme queue unconditionally
(`hc.acmeQueue.Clear()`).  A `nil` queue would be a nil-interface method
call, embedded as `none`. -/
def OnStoppedLeading (hc : HAProxyController) : Option HAProxyController :=
  match hc.acmeQueue with
  | none => none
  | some q => some { hc with acmeQueue := some q.clear }

/-- Observable steps of the shutdown path, in order. -/
inductive ShutdownEvent where
  | sleepGrace (seconds : Int)
  | signalWatchControllerStop
  | shutDownIngressQueue
  | shutDownAcmeQueue
  deriving Repr, DecidableEq

/-- `Stop`: when a positive grace period is configured it sleeps that
long, then calls `hc.controller.Stop()` — the external watch controller's
stop, which broadcasts the one-shot stop signal. -/
def Stop (cfg : Configuration) : List ShutdownEvent :=
  (if cfg.waitBeforeShutdown > 0 then [ShutdownEvent.sleepGrace cfg.waitBeforeShutdown]
   else [])
    ++ [ShutdownEvent.signalWatchControllerStop]

/-- `stopServices`: shuts down the ingress queue, then the acme queue
when it exists. -/
def stopServices (hasAcmeQueue : Bool) : List ShutdownEvent :=
  [ShutdownEvent.shutDownIngressQueue]
    ++ (if hasAcmeQueue then [ShutdownEvent.shutDownAcmeQueue] else [])

/-- The complete shutdown trace: `Stop` runs first; the stop signal it
sends unblocks `Start`'s wait on the stop channel (modelled from the
spec: the external watch controller's `Stop` broadcasts the one-shot stop
signal every task observes), after which `Start` runs `stopServices`. -/
def shutdownTrace (cfg : Configuration) (hasAcmeQueue : Bool) : List ShutdownEvent :=
  Stop cfg ++ stopServices hasAcmeQueue

/-- `Check`: the health-check endpoint; a `nil` error means healthy. -/
def Check (_hc : HAProxyController) (_req : Unit) : Option String := none

/-- A concrete operator configuration used by the witnesses: acme server
enabled, positive grace period and metrics period. -/
def sampleConfig : Configuration :=
  { acmeServer := true
    acmeElectionID := "acme-leader"
    ingressClass := "haproxy"
    acmeFailInitialDuration := 5
    acmeFailMaxDuration := 300
    rateLimitUpdate := 2
    statsCollectProcPeriodMs := 500
    waitBeforeShutdown := 10 }

/-- A second concrete configuration: same election base, different
ingress class. -/
def sampleConfigAlt : Configuration :=
  { sampleConfig with ingressClass := "haproxy-internal" }

/-! ## Helper lemmas -/

/-- The reconciliation handler never touches its own queue. -/
theorem syncIngress_ingressQueue (hc : HAProxyController) :
    (syncIngress hc).1.ingressQueue = hc.ingressQueue := by
  unfold syncIngress
  split <;> rfl

/-- While the queue is not shutting down, `n` handler invocations
advance the counter by `n`. -/
theorem iterSync_updateCount (n : Nat) (hc : HAProxyController)
    (h : hc.ingressQueue.shuttingDown = false) :
    (iterSync n hc).updateCount = hc.updateCount + n := by
  induction n generalizing hc with
  | zero => rfl
  | succ n ih =>
      rw [iterSync, ih (syncIngress hc).1 (by rw [syncIngress_ingressQueue]; exact h)]
      simp [syncIngress, h]
      omega

/-! ## Claim theorems -/

/-- Claim C1: every completed invocation of the reconciliation handler
(while `ShuttingDown()` is false) increases the update counter by exactly
one, and after `n` completed invocations from a freshly configured
controller the counter equals `n`. -/
theorem claimC1_updateCounter :
    (∀ hc : HAProxyController, hc.ingressQueue.shuttingDown = false →
      (syncIngress hc).1.updateCount = hc.updateCount + 1)
    ∧ (∀ (cfg : Configuration) (rs : String) (n : Nat),
        (iterSync n (configController cfg rs)).updateCount = n) := by
  constructor
  · intro hc h
    simp [syncIngress, h]
  · intro cfg rs n
    rw [iterSync_updateCount n (configController cfg rs) rfl]
    simp [configController]

/-- Witness for C1 at a concrete fresh controller and `n = 3`. -/
theorem claimC1_updateCounter_witness :
    (syncIngress NewHAProxyController).1.updateCount
        = NewHAProxyController.updateCount + 1
    ∧ (iterSync 3 (configController sampleConfig "reusesocket")).updateCount = 3 :=
  ⟨claimC1_updateCounter.1 NewHAProxyController rfl,
   claimC1_updateCounter.2 sampleConfig "reusesocket" 3⟩

/-- Claim C2: while not shutting down, the reconciliation handler performs,
in order: increment and log the update counter, start the timer, run the
converter's `Sync`, run `instance.Update(timer)`, and log completion with
the counter id. -/
theorem claimC2_syncOrder (hc : HAProxyController)
    (h : hc.ingressQueue.shuttingDown = false) :
    syncIngress hc =
      ({ hc with updateCount := hc.updateCount + 1 },
        [ SyncEvent.logStart (hc.updateCount + 1)
        , SyncEvent.timerStart
        , SyncEvent.converterSync
        , SyncEvent.instanceUpdate
        , SyncEvent.logFinish (hc.updateCount + 1) ]) := by
  simp [syncIngress, h]

/-- Witness for C2 at the fresh controller. -/
theorem claimC2_syncOrder_witness :
    syncIngress NewHAProxyController =
      ({ NewHAProxyController with updateCount := 1 },
        [ SyncEvent.logStart 1
        , SyncEvent.timerStart
        , SyncEvent.converterSync
        , SyncEvent.instanceUpdate
        , SyncEvent.logFinish 1 ]) :=
  claimC2_syncOrder NewHAProxyController rfl

/-- Claim C3: while `ShuttingDown()` is true the handler returns
immediately, performing no effect (in particular no converter `Sync` and
no `Update`), and the update counter is unchanged. -/
theorem claimC3_shuttingDownNoop (hc : HAProxyController)
    (h : hc.ingressQueue.shuttingDown = true) :
    syncIngress hc = (hc, [])
    ∧ (syncIngress hc).1.updateCount = hc.updateCount
    ∧ SyncEvent.converterSync ∉ (syncIngress hc).2
    ∧ SyncEvent.instanceUpdate ∉ (syncIngress hc).2 := by
  simp [syncIngress, h]

/-- Witness for C3: a controller whose queue was shut down. -/
theorem claimC3_shuttingDownNoop_witness :
    syncIngress { NewHAProxyController with ingressQueue := Queue.shutDown Queue.new }
      = ({ NewHAProxyController with ingressQueue := Queue.shutDown Queue.new }, []) :=
  (claimC3_shuttingDownNoop
    { NewHAProxyController with ingressQueue := Queue.shutDown Queue.new } rfl).1

/-- Claim C4: with reload strategy `multibinder`, startup succeeds with a
deprecation warning and the instance effectively runs the `reusesocket`
strategy (the queues are started); with any strategy outside
`{native, reusesocket, multibinder}` startup fails fatally and no queue
is started. -/
theorem claimC4_reloadStrategy (cfg : Configuration) (s : String)
    (h : s ≠ "native" ∧ s ≠ "reusesocket" ∧ s ≠ "multibinder") :
    startup cfg "multibinder" =
      Except.ok (configController cfg "multibinder",
        configControllerWarnings "multibinder",
        startServices cfg (configController cfg "multibinder"))
    ∧ configControllerWarnings "multibinder" ≠ []
    ∧ effectiveReloadStrategy
        (configController cfg "multibinder").instanceReloadStrategy = "reusesocket"
    ∧ Service.ingressQueueRun ∈ startServices cfg (configController cfg "multibinder")
    ∧ startup cfg s = Except.error ("Unsupported reload strategy: " ++ s)
    ∧ startedServices (startup cfg s) = [] := by
  obtain ⟨h1, h2, h3⟩ := h
  have e1 : (s == "native") = false := beq_eq_false_iff_ne.mpr h1
  have e2 : (s == "reusesocket") = false := beq_eq_false_iff_ne.mpr h2
  have e3 : (s == "multibinder") = false := beq_eq_false_iff_ne.mpr h3
  refine ⟨rfl, by simp [configControllerWarnings], rfl, ?_, ?_, ?_⟩
  · simp [startServices]
  · simp [startup, OverrideFlags, e1, e2, e3]
  · simp [startup, OverrideFlags, e1, e2, e3, startedServices]

/-- Witness for C4 at a concrete configuration and the invalid strategy
value `"bogus"`. -/
theorem claimC4_reloadStrategy_witness :
    startup sampleConfig "bogus"
      = Except.error ("Unsupported reload strategy: " ++ "bogus")
    ∧ effectiveReloadStrategy
        (configController sampleConfig "multibinder").instanceReloadStrategy
      = "reusesocket" :=
  ⟨(claimC4_reloadStrategy sampleConfig "bogus"
      ⟨by decide, by decide, by decide⟩).2.2.2.2.1,
   (claimC4_reloadStrategy sampleConfig "bogus"
      ⟨by decide, by decide, by decide⟩).2.2.1⟩

/-- Claim C5: when `OnStoppedLeading` fires with an acme queue present,
every pending certificate item is removed and the cleared queue yields no
further handler invocation. -/
theorem claimC5_clearOnStoppedLeading (hc : HAProxyController) (q : Queue)
    (h : hc.acmeQueue = some q) :
    OnStoppedLeading hc = some { hc with acmeQueue := some (Queue.clear q) }
    ∧ (Queue.clear q).pending = []
    ∧ (Queue.clear q).nextInvocation = none := by
  refine ⟨?_, rfl, rfl⟩
  simp [OnStoppedLeading, h]

/-- Witness for C5: two certificate items pending when leadership is
lost. -/
theorem claimC5_clearOnStoppedLeading_witness :
    OnStoppedLeading
        { NewHAProxyController with
            acmeQueue := some { pending := ["cert-a", "cert-b"], shuttingDown := false } }
      = some { NewHAProxyController with
            acmeQueue := some { pending := [], shuttingDown := false } }
    ∧ Queue.nextInvocation
        (Queue.clear { pending := ["cert-a", "cert-b"], shuttingDown := false }) = none :=
  ⟨(claimC5_clearOnStoppedLeading
      { NewHAProxyController with
          acmeQueue := some { pending := ["cert-a", "cert-b"], shuttingDown := false } }
      { pending := ["cert-a", "cert-b"], shuttingDown := false } rfl).1,
   (claimC5_clearOnStoppedLeading
      { NewHAProxyController with
          acmeQueue := some { pending := ["cert-a", "cert-b"], shuttingDown := false } }
      { pending := ["cert-a", "cert-b"], shuttingDown := false } rfl).2.2⟩

/-- Counterexample for C6: with a positive grace period (10 s) and both
queues present, the shutdown trace begins with the grace sleep, and the
queue shutdowns come after the watch-controller stop signal — not before
the sleep as the claim states. -/
theorem claimC6_counterexample :
    shutdownTrace sampleConfig true =
      [ ShutdownEvent.sleepGrace 10
      , ShutdownEvent.signalWatchControllerStop
      , ShutdownEvent.shutDownIngressQueue
      , ShutdownEvent.shutDownAcmeQueue ]
    ∧ ¬ ((shutdownTrace sampleConfig true).indexOf ShutdownEvent.shutDownIngressQueue
          < (shutdownTrace sampleConfig true).indexOf (ShutdownEvent.sleepGrace 10)) := by
  constructor
  · rfl
  · decide

/-- Claim C6 (amended): on shutdown, when a positive grace period is
configured the controller first sleeps that grace period, then signals
the external watch controller to stop; only after the stop signal is
observed does it call `ShutDown` on the work queue and then on the
failure-backoff queue when it exists. -/
theorem claimC6_shutdownOrder (cfg : Configuration) (hasAcmeQueue : Bool)
    (h : 0 < cfg.waitBeforeShutdown) :
    shutdownTrace cfg hasAcmeQueue =
      [ ShutdownEvent.sleepGrace cfg.waitBeforeShutdown
      , ShutdownEvent.signalWatchControllerStop
      , ShutdownEvent.shutDownIngressQueue ]
      ++ (if hasAcmeQueue then [ShutdownEvent.shutDownAcmeQueue] else []) := by
  simp [shutdownTrace, Stop, stopServices, h]

/-- Witness for C6 (amended) at the sample configuration. -/
theorem claimC6_shutdownOrder_witness :
    shutdownTrace sampleConfig true =
      [ ShutdownEvent.sleepGrace sampleConfig.waitBeforeShutdown
      , ShutdownEvent.signalWatchControllerStop
      , ShutdownEvent.shutDownIngressQueue ]
      ++ (if true then [ShutdownEvent.shutDownAcmeQueue] else []) :=
  claimC6_shutdownOrder sampleConfig true (by decide)

/-- Claim C7: the leader elector, the acme signer, the failure-backoff
queue, the certificate control-socket listener and the periodic jittered
certificate check are created/started exactly when `AcmeServer` is
enabled; all of them are absent when it is disabled. -/
theorem claimC7_acmeGating (cfg : Configuration) (rs : String) :
    (configController cfg rs).leaderelector.isSome = cfg.acmeServer
    ∧ (configController cfg rs).acmeSigner.isSome = cfg.acmeServer
    ∧ (configController cfg rs).acmeQueue.isSome = cfg.acmeServer
    ∧ ((Service.electorRun ∈ startServices cfg (configController cfg rs))
        ↔ cfg.acmeServer = true)
    ∧ ((Service.acmeServerListen ∈ startServices cfg (configController cfg rs))
        ↔ cfg.acmeServer = true)
    ∧ ((Service.acmeQueueRun ∈ startServices cfg (configController cfg rs))
        ↔ cfg.acmeServer = true)
    ∧ ((Service.acmeJitterCheck ∈ startServices cfg (configController cfg rs))
        ↔ cfg.acmeServer = true) := by
  cases hA : cfg.acmeServer <;>
    by_cases hP : cfg.statsCollectProcPeriodMs > 0 <;>
      simp [configController, startServices, hA, hP]

/-- Claim C8: the leader-election identifier is the configured base
election id, a hyphen, and the ingress class; with the same base,
distinct ingress classes yield distinct identifiers. -/
theorem claimC8_electorID :
    (∀ (cfg : Configuration) (rs : String), cfg.acmeServer = true →
      (configController cfg rs).leaderelector
        = some (cfg.acmeElectionID ++ "-" ++ cfg.ingressClass))
    ∧ (∀ cfg₁ cfg₂ : Configuration,
        cfg₁.acmeElectionID = cfg₂.acmeElectionID →
        cfg₁.ingressClass ≠ cfg₂.ingressClass →
        electorID cfg₁ ≠ electorID cfg₂) := by
  constructor
  · intro cfg rs h
    simp [configController, h, electorID]
  · intro cfg₁ cfg₂ hbase hne h
    apply hne
    have hdata : (electorID cfg₁).data = (electorID cfg₂).data :=
      congrArg String.data h
    simp only [electorID, hbase, String.data_append,
      List.append_cancel_left_eq] at hdata
    exact String.ext hdata

/-- Witness for C8: the sample configurations share the election base and
differ in ingress class. -/
theorem claimC8_electorID_witness :
    (configController sampleConfig "reusesocket").leaderelector
      = some (sampleConfig.acmeElectionID ++ "-" ++ sampleConfig.ingressClass)
    ∧ electorID sampleConfig ≠ electorID sampleConfigAlt :=
  ⟨claimC8_electorID.1 sampleConfig "reusesocket" rfl,
   claimC8_electorID.2 sampleConfig sampleConfigAlt rfl (by decide)⟩

/-- Claim C9: after `configController`, a leader elector exists exactly
when the acme queue exists, so the unconditional `acmeQueue.Clear()` in
`OnStoppedLeading` never hits a nil queue when the callback comes from
the elector. -/
theorem claimC9_electorQueueConsistency (cfg : Configuration) (rs : String) :
    ((configController cfg rs).leaderelector.isSome
      ↔ (configController cfg rs).acmeQueue.isSome)
    ∧ ((configController cfg rs).leaderelector.isSome →
        (OnStoppedLeading (configController cfg rs)).isSome) := by
  cases hA : cfg.acmeServer <;>
    simp [configController, OnStoppedLeading, hA]

/-- Witness for C9 at the sample configuration (acme server enabled). -/
theorem claimC9_electorQueueConsistency_witness :
    (OnStoppedLeading (configController sampleConfig "reusesocket")).isSome :=
  (claimC9_electorQueueConsistency sampleConfig "reusesocket").2 (by decide)

/-- Claim C10: the health check returns a nil error for every request in
every controller state. -/
theorem claimC10_checkHealthy (hc : HAProxyController) (req : Unit) :
    Check hc req = none := rfl

end HAProxyIngress
